import Mathlib

/-!
Shallow embedding of `src/lib/push-notifications.ts` (africash-site).

The module drives a linear, single-pass web-push bootstrap:
capability probe, permission resolution, service-worker registration,
messaging-client setup, token fetch, best-effort backend device
registration, foreground-listener wiring, and two module-level cells
(`isInitialized`, `registrationToken`) with read accessors.

The external collaborators (browser permission API, `fcmService` from
`@/lib/firebase`, the dynamically imported api client) are modelled as an
environment record fixing the outcome of each call; each call can either
resolve with a value or throw, mirroring promise rejection.  The run
produces the final module state together with a trace counting how often
each external call was issued, and either returns normally from the
`try` block or reaches the outer `catch` boundary.
-/

/-- Browser notification permission: the three values of
`Notification.permission`. -/
inductive Permission where
  | default
  | granted
  | denied
deriving DecidableEq, Repr

/-- Outcome of a call into an external collaborator: either it resolves
with a value, or it throws / its promise rejects. -/
inductive Outcome (α : Type) where
  | ok (value : α)
  | throw
deriving DecidableEq, Repr

/-- Does an outcome resolve (promise fulfilled rather than rejected)? -/
def Outcome.isOk {α : Type} : Outcome α → Bool
  | Outcome.ok _ => true
  | Outcome.throw => false

/-- Environment: the browser capabilities and the fixed outcome of every
external call the bootstrap can make. -/
structure Env where
  /-- `typeof window !== 'undefined'` (source line 120). -/
  windowDefined : Bool
  /-- `'serviceWorker' in navigator` (line 126). -/
  serviceWorkerSupported : Bool
  /-- `'PushManager' in window` (line 131). -/
  pushManagerSupported : Bool
  /-- `'Notification' in window` (lines 136 and 277). -/
  notificationSupported : Bool
  /-- `window.isSecureContext` (line 141). -/
  isSecureContext : Bool
  /-- the value read from `Notification.permission` (lines 153 and 280). -/
  notificationPermission : Permission
  /-- outcome of `Notification.requestPermission()` (line 159). -/
  requestPermission : Outcome Permission
  /-- outcome of `fcmService.registerServiceWorker()` (line 185):
  resolves to a registration object or to null, or rejects. -/
  registerServiceWorker : Outcome (Option Unit)
  /-- outcome of `fcmService.initialize()` (line 196). -/
  fcmInit : Outcome Unit
  /-- outcome of `fcmService.getToken()` (line 201): a string or null. -/
  getToken : Outcome (Option String)
  /-- outcome of the dynamic api import plus `api.post('/mobcash/devices/', ...)`
  inside `registerDeviceOnBackend` (lines 38 and 41). -/
  backendPost : Outcome Unit
  /-- outcome of `fcmService.setupForegroundListener(...)` (line 223). -/
  setupForegroundListener : Outcome Unit
deriving DecidableEq, Repr

/-- The module-level mutable cells of `push-notifications.ts`
(lines 13 and 14). -/
structure PushState where
  isInitialized : Bool
  registrationToken : Option String
deriving DecidableEq, Repr

/-- Module state at page load: `isInitialized = false`,
`registrationToken = null`. -/
def initialPushState : PushState :=
  { isInitialized := false, registrationToken := none }

/-- How often each external call was issued during one run of
`initializePushNotifications`. -/
structure Trace where
  requestPermissionCalls : Nat
  registerServiceWorkerCalls : Nat
  fcmInitCalls : Nat
  getTokenCalls : Nat
  backendCalls : Nat
  setupListenerCalls : Nat
deriving DecidableEq, Repr

/-- The trace of a run that issued no external call. -/
def Trace.empty : Trace := ⟨0, 0, 0, 0, 0, 0⟩

/-- JavaScript truthiness of a `string | null` value: `null`, `undefined`
and the empty string are falsy.  This is the test `if (token)` performs at
source line 203. -/
def jsTruthyString : Option String → Bool
  | none => false
  | some s => !(s == "")

/-- JavaScript `x || d` on a possibly-absent string: yields `d` when `x`
is `undefined`/`null` or the empty string (lines 232 and 233). -/
def jsOrElse (x : Option String) (d : String) : String :=
  match x with
  | none => d
  | some s => if s == "" then d else s

/-- `registerDeviceOnBackend` (lines 32-50): attempts the dynamic api
module load and the POST to `/mobcash/devices/`; its own `try`/`catch`
logs any error and swallows it, so the function's promise always
resolves. -/
def registerDeviceOnBackend (backendOutcome : Outcome Unit) : Outcome Unit :=
  match backendOutcome with
  | Outcome.ok _ => Outcome.ok ()
  | Outcome.throw => Outcome.ok ()

/-- The capability probe of lines 120-144: browser context, service
worker, PushManager, Notification API, secure context — any missing one
exits the function before the `try` block. -/
def capabilitiesOk (env : Env) : Bool :=
  env.windowDefined && env.serviceWorkerSupported && env.pushManagerSupported &&
    env.notificationSupported && env.isSecureContext

/-- Result of the `try` block of lines 150-248: either a normal return
(`done`) or an exception that escapes to the outer `catch` (`thrown`),
each carrying the module state and call trace at that point. -/
inductive TryResult where
  | done (s : PushState) (t : Trace)
  | thrown (s : PushState) (t : Trace)
deriving DecidableEq, Repr

/-- Module state at the end of the `try` block, whether it returned or
threw. -/
def TryResult.state : TryResult → PushState
  | TryResult.done s _ => s
  | TryResult.thrown s _ => s

/-- Call trace accumulated by the `try` block, whether it returned or
threw. -/
def TryResult.trace : TryResult → Trace
  | TryResult.done _ t => t
  | TryResult.thrown _ t => t

/-- The part of the `try` block after permission has resolved to
`granted` (source lines 183-247): service-worker registration, messaging
client setup, token fetch, backend registration, listener wiring, and
finally `isInitialized = true`.  `reqCalls` is the number of
`Notification.requestPermission()` calls already issued. -/
def afterPermissionGranted (env : Env) (s : PushState) (reqCalls : Nat) : TryResult :=
  match env.registerServiceWorker with
  | Outcome.throw => TryResult.thrown s ⟨reqCalls, 1, 0, 0, 0, 0⟩
  | Outcome.ok none => TryResult.done s ⟨reqCalls, 1, 0, 0, 0, 0⟩
  | Outcome.ok (some _) =>
    match env.fcmInit with
    | Outcome.throw => TryResult.thrown s ⟨reqCalls, 1, 1, 0, 0, 0⟩
    | Outcome.ok _ =>
      match env.getToken with
      | Outcome.throw => TryResult.thrown s ⟨reqCalls, 1, 1, 1, 0, 0⟩
      | Outcome.ok tok =>
        if jsTruthyString tok then
          match registerDeviceOnBackend env.backendPost with
          | Outcome.throw =>
            TryResult.thrown { s with registrationToken := tok }
              ⟨reqCalls, 1, 1, 1, 1, 0⟩
          | Outcome.ok _ =>
            match env.setupForegroundListener with
            | Outcome.throw =>
              TryResult.thrown { s with registrationToken := tok }
                ⟨reqCalls, 1, 1, 1, 1, 1⟩
            | Outcome.ok _ =>
              TryResult.done
                { s with registrationToken := tok, isInitialized := true }
                ⟨reqCalls, 1, 1, 1, 1, 1⟩
        else
          TryResult.done s ⟨reqCalls, 1, 1, 1, 0, 0⟩

/-- The `try` block of lines 150-248, beginning with permission
resolution (lines 153-173): read `Notification.permission`; if `denied`
return; if `default` issue one `Notification.requestPermission()` and use
its result; any resolved status other than `granted` returns. -/
def runTryBody (env : Env) (s : PushState) : TryResult :=
  match env.notificationPermission with
  | Permission.denied => TryResult.done s Trace.empty
  | Permission.granted => afterPermissionGranted env s 0
  | Permission.default =>
    match env.requestPermission with
    | Outcome.throw => TryResult.thrown s ⟨1, 0, 0, 0, 0, 0⟩
    | Outcome.ok Permission.granted => afterPermissionGranted env s 1
    | Outcome.ok Permission.default => TryResult.done s ⟨1, 0, 0, 0, 0, 0⟩
    | Outcome.ok Permission.denied => TryResult.done s ⟨1, 0, 0, 0, 0, 0⟩

/-- `initializePushNotifications()` (lines 108-257): early return when
already flagged, capability probe, then the `try` block; the outer
`catch` (lines 249-256) logs any exception and returns normally, so the
promise resolves in both cases.  The result is the resolved/rejected
status of the returned promise together with the final module state and
the trace of external calls. -/
def initializePushNotifications (env : Env) (s : PushState) :
    Outcome (PushState × Trace) :=
  if s.isInitialized then Outcome.ok (s, Trace.empty)
  else if capabilitiesOk env then
    match runTryBody env s with
    | TryResult.done s2 t => Outcome.ok (s2, t)
    | TryResult.thrown s2 t => Outcome.ok (s2, t)
  else Outcome.ok (s, Trace.empty)

/-- Final state and trace of one run (the promise always resolves; the
`throw` branch is unreachable). -/
def runPush (env : Env) (s : PushState) : PushState × Trace :=
  match initializePushNotifications env s with
  | Outcome.ok r => r
  | Outcome.throw => (s, Trace.empty)

/-- `getPushToken()` (lines 262-264). -/
def getPushToken (s : PushState) : Option String :=
  s.registrationToken

/-- `isPushInitialized()` (lines 269-271). -/
def isPushInitialized (s : PushState) : Bool :=
  s.isInitialized

/-- `getPermissionStatus()` (lines 276-281). -/
def getPermissionStatus (env : Env) : Permission :=
  if !env.windowDefined || !env.notificationSupported then Permission.denied
  else env.notificationPermission

/-- Does permission resolution (lines 153-173) end in `granted`? -/
def permissionResolvesGranted (env : Env) : Bool :=
  match env.notificationPermission with
  | Permission.granted => true
  | Permission.denied => false
  | Permission.default =>
    match env.requestPermission with
    | Outcome.ok Permission.granted => true
    | Outcome.ok Permission.default => false
    | Outcome.ok Permission.denied => false
    | Outcome.throw => false

/-- Did `fcmService.registerServiceWorker()` resolve to a non-null
registration object? -/
def swStepOk (env : Env) : Bool :=
  match env.registerServiceWorker with
  | Outcome.ok (some _) => true
  | Outcome.ok none => false
  | Outcome.throw => false

/-- Did `fcmService.initialize` resolve? -/
def fcmStepOk (env : Env) : Bool :=
  match env.fcmInit with
  | Outcome.ok _ => true
  | Outcome.throw => false

/-- Did `fcmService.getToken()` return a truthy token? -/
def tokenStepOk (env : Env) : Bool :=
  match env.getToken with
  | Outcome.ok tok => jsTruthyString tok
  | Outcome.throw => false

/-- Did `fcmService.setupForegroundListener` return without throwing? -/
def listenerStepOk (env : Env) : Bool :=
  match env.setupForegroundListener with
  | Outcome.ok _ => true
  | Outcome.throw => false

/-- Success of every step after permission is granted, except the
deliberately unconstrained backend call. -/
def postPermissionSuccess (env : Env) : Bool :=
  swStepOk env && fcmStepOk env && tokenStepOk env && listenerStepOk env

/-- All conditions under which one run completes the full sequence and
sets the initialized flag: capabilities present, permission resolves
granted, non-null worker registration, messaging client setup resolves,
truthy token, listener wiring resolves.  The backend call's outcome is
deliberately unconstrained. -/
def fullSuccess (env : Env) : Bool :=
  capabilitiesOk env && permissionResolvesGranted env && postPermissionSuccess env

/-- All conditions under which one run reaches the token-caching
assignment `registrationToken = token` (line 209): everything up to and
including a truthy token fetch. -/
def reachedTokenCache (env : Env) : Bool :=
  capabilitiesOk env && permissionResolvesGranted env &&
    swStepOk env && fcmStepOk env && tokenStepOk env

/-- The token value the messaging client handed back, when it resolved. -/
def fetchedToken (env : Env) : Option String :=
  match env.getToken with
  | Outcome.ok tok => tok
  | Outcome.throw => none

/- ================= Foreground notifier (lines 17-98, 223-238) ========== -/

/-- The static channel descriptor `NOTIFICATION_CHANNEL` (lines 17-27). -/
structure NotificationChannel where
  id : String
  channelName : String
  channelDescription : String
  importance : String
  badge : String
  icon : String
  vibrate : List Nat
  requireInteraction : Bool
deriving DecidableEq, Repr

/-- Source lines 17-27. -/
def NOTIFICATION_CHANNEL : NotificationChannel :=
  { id := "africash_foreground"
    channelName := "africash_foreground"
    channelDescription := "All Africash notifications with high priority display"
    importance := "high"
    badge := "/placeholder-logo.png"
    icon := "/placeholder-logo.png"
    vibrate := [200, 100, 200]
    requireInteraction := false }

/-- `payload.notification` of a foreground message: optional title and
body. -/
structure NotificationContent where
  title : Option String
  body : Option String
deriving DecidableEq, Repr

/-- `payload.data` of a foreground message; only its `url` field is
inspected by this module. -/
structure PayloadData where
  url : Option String
deriving DecidableEq, Repr

/-- A foreground `MessagePayload` as consumed by the listener callback
(lines 223-238): both `notification` and `data` may be absent. -/
structure ForegroundPayload where
  notification : Option NotificationContent
  data : Option PayloadData
deriving DecidableEq, Repr

/-- The arguments the `new Notification(title, {...})` constructor
receives at lines 71-80. -/
structure BuiltNotification where
  title : String
  body : String
  icon : String
  badge : String
  tag : String
  requireInteraction : Bool
  vibrate : List Nat
  data : Option PayloadData
deriving DecidableEq, Repr

/-- Observable effects of the `onclick` handler (lines 82-92). -/
structure ClickBehavior where
  preventedDefault : Bool
  focusedWindow : Bool
  openedUrl : Option String
  closedNotification : Bool
deriving DecidableEq, Repr

/-- The click handler wired at lines 82-92: always prevents default,
focuses the window, opens `data.url` in a new context only when that
field is truthy (`if (data?.url)`), then closes the notification. -/
def notificationClick (data : Option PayloadData) : ClickBehavior :=
  { preventedDefault := true
    focusedWindow := true
    openedUrl :=
      match data with
      | none => none
      | some d =>
        match d.url with
        | none => none
        | some u => if u == "" then none else some u
    closedNotification := true }

/-- `showNativeNotification` (lines 55-98): bail out when the
Notification API is unavailable or permission is not granted; otherwise
construct the notification from the channel descriptor, with a tag of the
channel id and the current timestamp, and wire the click handler.  The
constructor sits in a `try`/`catch`; a throwing constructor
(`ctorThrows`) is logged and yields no notification. -/
def showNativeNotification (notifApiAvailable : Bool) (permission : Permission)
    (ctorThrows : Bool) (now : Nat) (title : String) (body : String)
    (data : Option PayloadData) : Option (BuiltNotification × ClickBehavior) :=
  if !notifApiAvailable then none
  else if permission ≠ Permission.granted then none
  else if ctorThrows then none
  else
    some
      ({ title := title
         body := body
         icon := NOTIFICATION_CHANNEL.icon
         badge := NOTIFICATION_CHANNEL.badge
         tag := NOTIFICATION_CHANNEL.id ++ "_" ++ toString now
         requireInteraction := NOTIFICATION_CHANNEL.requireInteraction
         vibrate := NOTIFICATION_CHANNEL.vibrate
         data := data },
       notificationClick data)

/-- The foreground-message callback registered at lines 223-238: derive
title and body with JavaScript `||` fallbacks and hand them to
`showNativeNotification` together with `payload.data`. -/
def foregroundListener (notifApiAvailable : Bool) (permission : Permission)
    (ctorThrows : Bool) (now : Nat) (payload : ForegroundPayload) :
    Option (BuiltNotification × ClickBehavior) :=
  showNativeNotification notifApiAvailable permission ctorThrows now
    (jsOrElse (payload.notification.bind NotificationContent.title) "Notification")
    (jsOrElse (payload.notification.bind NotificationContent.body) "")
    payload.data

/- ===== Spec-side characterizations used by amended claims C7, C8 ====== -/

/-- Amended-claim characterization of the displayed title: the payload
title, falling back to "Notification" when the title is absent or the
empty string. -/
def amendedTitle (payload : ForegroundPayload) : String :=
  match payload.notification with
  | none => "Notification"
  | some n =>
    match n.title with
    | none => "Notification"
    | some t => if t = "" then "Notification" else t

/-- Amended-claim characterization of the displayed body: the payload
body when present and non-empty, otherwise the empty string. -/
def amendedBody (payload : ForegroundPayload) : String :=
  match payload.notification with
  | none => ""
  | some n =>
    match n.body with
    | none => ""
    | some b => b

/-- Amended-claim characterization of the URL a click opens: the payload
url only when present and non-empty. -/
def amendedOpenedUrl (payload : ForegroundPayload) : Option String :=
  match payload.data with
  | none => none
  | some d =>
    match d.url with
    | none => none
    | some u => if u = "" then none else some u

/- =================== Concrete inputs for witnesses ==================== -/

/-- An environment in which every collaborator succeeds. -/
def envAllOk : Env :=
  { windowDefined := true
    serviceWorkerSupported := true
    pushManagerSupported := true
    notificationSupported := true
    isSecureContext := true
    notificationPermission := Permission.granted
    requestPermission := Outcome.ok Permission.granted
    registerServiceWorker := Outcome.ok (some ())
    fcmInit := Outcome.ok ()
    getToken := Outcome.ok (some "tokA")
    backendPost := Outcome.ok ()
    setupForegroundListener := Outcome.ok () }

/-- A fully-working environment whose service-worker registration
resolves to null. -/
def envNullWorker : Env :=
  { envAllOk with registerServiceWorker := Outcome.ok none }

/-- A fully-working environment in which permission reads denied. -/
def envDenied : Env :=
  { envAllOk with notificationPermission := Permission.denied }

/-- A fully-working environment in which the backend POST rejects. -/
def envBackendFails : Env :=
  { envAllOk with backendPost := Outcome.throw }

/-- A fully-working environment in which permission initially reads
default and the user grants it at the prompt. -/
def envDefaultGrant : Env :=
  { envAllOk with notificationPermission := Permission.default }

/-- An environment in which everything up to the token fetch succeeds
but `fcmService.setupForegroundListener` throws. -/
def envListenerThrows : Env :=
  { envAllOk with
    getToken := Outcome.ok (some "tok-c7")
    setupForegroundListener := Outcome.throw }

/-- A foreground payload whose title and url are present but empty — the
inputs on which JavaScript truthiness diverges from presence. -/
def cexPayload : ForegroundPayload :=
  { notification := some { title := some "", body := some "B" }
    data := some { url := some "" } }

/-- The payload of the spec's own foreground-message test vector. -/
def specPayload : ForegroundPayload :=
  { notification := some { title := some "T", body := some "B" }
    data := some { url := some "https://example.com" } }

/-- The notification the listener constructs from `specPayload` at
timestamp 7. -/
def specBuilt : BuiltNotification :=
  { title := "T"
    body := "B"
    icon := "/placeholder-logo.png"
    badge := "/placeholder-logo.png"
    tag := "africash_foreground_7"
    requireInteraction := false
    vibrate := [200, 100, 200]
    data := some { url := some "https://example.com" } }

/-- The click behavior the listener wires for `specPayload`. -/
def specClick : ClickBehavior :=
  { preventedDefault := true
    focusedWindow := true
    openedUrl := some "https://example.com"
    closedNotification := true }

/-- The notification the listener constructs from `cexPayload` at
timestamp 0. -/
def cexBuilt : BuiltNotification :=
  { title := "Notification"
    body := "B"
    icon := "/placeholder-logo.png"
    badge := "/placeholder-logo.png"
    tag := "africash_foreground_0"
    requireInteraction := false
    vibrate := [200, 100, 200]
    data := some { url := some "" } }

/-- The click behavior the listener wires for `cexPayload`. -/
def cexClick : ClickBehavior :=
  { preventedDefault := true
    focusedWindow := true
    openedUrl := none
    closedNotification := true }

/- ========================= Helper lemmas ============================== -/

/-- Guard at lines 112-115: a flagged module state short-circuits the
run. -/
theorem runPush_of_flag (env : Env) (s : PushState) (h : s.isInitialized = true) :
    runPush env s = (s, Trace.empty) := by
  simp [runPush, initializePushNotifications, h]

/-- A failed capability probe short-circuits the run. -/
theorem runPush_of_no_caps (env : Env) (s : PushState)
    (h : s.isInitialized = false) (hc : capabilitiesOk env = false) :
    runPush env s = (s, Trace.empty) := by
  simp [runPush, initializePushNotifications, h, hc]

/-- With the guards passed, the run's result is the `try` block's result,
whether the block returned or threw (the outer catch keeps state and
trace). -/
theorem runPush_of_caps (env : Env) (s : PushState)
    (h : s.isInitialized = false) (hc : capabilitiesOk env = true) :
    runPush env s = ((runTryBody env s).state, (runTryBody env s).trace) := by
  simp only [runPush, initializePushNotifications, h, hc]
  cases hr : runTryBody env s <;>
    simp [hr, TryResult.state, TryResult.trace]

/-- After granted permission, the final flag equals the conjunction of
the remaining step successes (backend outcome irrelevant). -/
theorem afterPerm_state_flag (env : Env) (s : PushState) (r : Nat)
    (h : s.isInitialized = false) :
    (afterPermissionGranted env s r).state.isInitialized =
      postPermissionSuccess env := by
  unfold afterPermissionGranted postPermissionSuccess swStepOk fcmStepOk
    tokenStepOk listenerStepOk registerDeviceOnBackend
  cases hsw : env.registerServiceWorker with
  | throw => simp [TryResult.state, h]
  | ok reg =>
    cases reg with
    | none => simp [TryResult.state, h]
    | some u =>
      cases hf : env.fcmInit with
      | throw => simp [TryResult.state, h]
      | ok v =>
        cases ht : env.getToken with
        | throw => simp [TryResult.state, h]
        | ok tok =>
          cases hb : env.backendPost <;>
            cases hl : env.setupForegroundListener <;>
              by_cases htr : jsTruthyString tok = true <;>
                simp [TryResult.state, h, htr]

/-- After granted permission, the final cached token is the fetched
token exactly when the pre-listener steps succeed. -/
theorem afterPerm_state_token (env : Env) (s : PushState) (r : Nat)
    (h : s.registrationToken = none) :
    (afterPermissionGranted env s r).state.registrationToken =
      (if swStepOk env && fcmStepOk env && tokenStepOk env
       then fetchedToken env else none) := by
  unfold afterPermissionGranted swStepOk fcmStepOk tokenStepOk fetchedToken
    registerDeviceOnBackend
  cases hsw : env.registerServiceWorker with
  | throw => simp [TryResult.state, h]
  | ok reg =>
    cases reg with
    | none => simp [TryResult.state, h]
    | some u =>
      cases hf : env.fcmInit with
      | throw => simp [TryResult.state, h]
      | ok v =>
        cases ht : env.getToken with
        | throw => simp [TryResult.state, h]
        | ok tok =>
          cases hb : env.backendPost <;>
            cases hl : env.setupForegroundListener <;>
              by_cases htr : jsTruthyString tok = true <;>
                simp [TryResult.state, h, htr]

/-- After granted permission, the request counter is passed through and
the worker registration is attempted exactly once. -/
theorem afterPerm_trace_head (env : Env) (s : PushState) (r : Nat) :
    (afterPermissionGranted env s r).trace.requestPermissionCalls = r ∧
    (afterPermissionGranted env s r).trace.registerServiceWorkerCalls = 1 := by
  unfold afterPermissionGranted registerDeviceOnBackend
  cases hsw : env.registerServiceWorker with
  | throw => simp [TryResult.trace]
  | ok reg =>
    cases reg with
    | none => simp [TryResult.trace]
    | some u =>
      cases hf : env.fcmInit with
      | throw => simp [TryResult.trace]
      | ok v =>
        cases ht : env.getToken with
        | throw => simp [TryResult.trace]
        | ok tok =>
          cases hb : env.backendPost <;>
            cases hl : env.setupForegroundListener <;>
              by_cases htr : jsTruthyString tok = true <;>
                simp [TryResult.trace, htr]

/-- The `try` block's final flag: permission resolution times the later
steps. -/
theorem tryBody_state_flag (env : Env) (s : PushState)
    (h : s.isInitialized = false) :
    (runTryBody env s).state.isInitialized =
      (permissionResolvesGranted env && postPermissionSuccess env) := by
  unfold runTryBody permissionResolvesGranted
  cases hperm : env.notificationPermission with
  | denied => simp [TryResult.state, h]
  | granted => simp [afterPerm_state_flag env s 0 h]
  | default =>
    cases hreq : env.requestPermission with
    | throw => simp [TryResult.state, h]
    | ok p =>
      cases p with
      | granted => rw [afterPerm_state_flag env s 1 h]; simp
      | default => simp [TryResult.state, h]
      | denied => simp [TryResult.state, h]

/-- The `try` block's final cached token. -/
theorem tryBody_state_token (env : Env) (s : PushState)
    (h : s.registrationToken = none) :
    (runTryBody env s).state.registrationToken =
      (if permissionResolvesGranted env && swStepOk env && fcmStepOk env &&
            tokenStepOk env
       then fetchedToken env else none) := by
  unfold runTryBody permissionResolvesGranted
  cases hperm : env.notificationPermission with
  | denied => simp [TryResult.state, h]
  | granted => simp [afterPerm_state_token env s 0 h, Bool.and_assoc]
  | default =>
    cases hreq : env.requestPermission with
    | throw => simp [TryResult.state, h]
    | ok p =>
      cases p with
      | granted => rw [afterPerm_state_token env s 1 h]; simp [Bool.and_assoc]
      | default => simp [TryResult.state, h]
      | denied => simp [TryResult.state, h]

/-- When worker registration resolves to null, the `try` block issues no
messaging-client, token, backend, or listener call. -/
theorem tryBody_trace_null_sw (env : Env) (s : PushState)
    (hsw : env.registerServiceWorker = Outcome.ok none) :
    (runTryBody env s).trace.fcmInitCalls = 0 ∧
    (runTryBody env s).trace.getTokenCalls = 0 ∧
    (runTryBody env s).trace.backendCalls = 0 ∧
    (runTryBody env s).trace.setupListenerCalls = 0 := by
  unfold runTryBody afterPermissionGranted
  cases hperm : env.notificationPermission with
  | denied => simp [TryResult.trace, Trace.empty]
  | granted => simp [hsw, TryResult.trace]
  | default =>
    cases hreq : env.requestPermission with
    | throw => simp [TryResult.trace]
    | ok p => cases p <;> simp [hsw, TryResult.trace]

/-- When permission resolves to granted, the `try` block is the
post-permission tail, with zero or one permission request issued. -/
theorem tryBody_eq_afterPerm (env : Env) (s : PushState)
    (hp : permissionResolvesGranted env = true) :
    runTryBody env s = afterPermissionGranted env s 0 ∨
    runTryBody env s = afterPermissionGranted env s 1 := by
  unfold permissionResolvesGranted at hp
  unfold runTryBody
  cases hperm : env.notificationPermission with
  | granted => exact Or.inl rfl
  | denied => rw [hperm] at hp; simp at hp
  | default =>
    rw [hperm] at hp
    cases hreq : env.requestPermission with
    | throw => rw [hreq] at hp; simp at hp
    | ok p =>
      rw [hreq] at hp
      cases p with
      | granted => exact Or.inr rfl
      | default => simp at hp
      | denied => simp at hp

/-- The fully successful tail: non-null registration, resolving client
setup, truthy token, resolving listener wiring — whatever the backend
call does, the run ends initialized with the token cached. -/
theorem afterPerm_success_leaf (env : Env) (s : PushState) (r : Nat) (tok : String)
    (hsw : env.registerServiceWorker = Outcome.ok (some ()))
    (hf : env.fcmInit = Outcome.ok ())
    (ht : env.getToken = Outcome.ok (some tok))
    (hne : tok ≠ "")
    (hl : env.setupForegroundListener = Outcome.ok ()) :
    afterPermissionGranted env s r =
      TryResult.done { s with registrationToken := some tok, isInitialized := true }
        ⟨r, 1, 1, 1, 1, 1⟩ := by
  cases hbp : env.backendPost <;>
    simp [afterPermissionGranted, hsw, hf, ht, hl, hbp, registerDeviceOnBackend,
      jsTruthyString, hne]

/-- The listener's title computation matches the absent-or-empty
fallback characterization. -/
theorem jsOrElse_title_eq (payload : ForegroundPayload) :
    jsOrElse (payload.notification.bind NotificationContent.title) "Notification" =
      amendedTitle payload := by
  rcases payload with ⟨notif, d⟩
  cases notif with
  | none => rfl
  | some n =>
    cases hn : n.title with
    | none => simp [jsOrElse, amendedTitle, hn, Option.bind]
    | some t =>
      by_cases he : t = "" <;> simp [jsOrElse, amendedTitle, hn, he, Option.bind]

/-- The listener's body computation matches the payload body with empty
default. -/
theorem jsOrElse_body_eq (payload : ForegroundPayload) :
    jsOrElse (payload.notification.bind NotificationContent.body) "" =
      amendedBody payload := by
  rcases payload with ⟨notif, d⟩
  cases notif with
  | none => rfl
  | some n =>
    cases hn : n.body with
    | none => simp [jsOrElse, amendedBody, hn, Option.bind]
    | some b =>
      by_cases he : b = "" <;> simp [jsOrElse, amendedBody, hn, he, Option.bind]

/-- The click handler opens exactly the present-and-non-empty payload
url. -/
theorem click_url_eq (payload : ForegroundPayload) :
    (notificationClick payload.data).openedUrl = amendedOpenedUrl payload := by
  rcases payload with ⟨notif, d⟩
  cases d with
  | none => rfl
  | some pd =>
    cases hu : pd.url with
    | none => simp [notificationClick, amendedOpenedUrl, hu]
    | some u =>
      by_cases he : u = "" <;> simp [notificationClick, amendedOpenedUrl, hu, he]

/- ========================= Claim theorems ============================= -/

/-- Claim C1: for every environment and every outcome of the external
collaborators (permission API, service-worker registration, messaging
client, backend call), the promise returned by
`initializePushNotifications` resolves and never rejects: any exception
raised inside the sequence is stopped at the outer catch boundary and
none propagates to the caller. -/
theorem c1_promise_always_resolves (env : Env) (s : PushState) :
    (initializePushNotifications env s).isOk = true := by
  unfold initializePushNotifications
  split
  · rfl
  · split
    · cases runTryBody env s <;> rfl
    · rfl

/-- Claim C2: if the initialization flag is already set,
`initializePushNotifications` returns immediately, resolved, with the
state untouched and not a single external call issued. -/
theorem c2_reentry_no_op (env : Env) (s : PushState)
    (h : isPushInitialized s = true) :
    initializePushNotifications env s = Outcome.ok (s, Trace.empty) := by
  have h0 : s.isInitialized = true := h
  simp [initializePushNotifications, h0]

/-- Witness for C2 at a concrete flagged state and environment. -/
theorem c2_witness :
    isPushInitialized { isInitialized := true, registrationToken := some "tokA" } = true ∧
    initializePushNotifications envAllOk
        { isInitialized := true, registrationToken := some "tokA" } =
      Outcome.ok ({ isInitialized := true, registrationToken := some "tokA" }, Trace.empty) :=
  ⟨rfl, c2_reentry_no_op envAllOk
    { isInitialized := true, registrationToken := some "tokA" } rfl⟩

/-- Claim C3: starting unflagged, the run ends with the flag set exactly
when the full sequence succeeds — capabilities present, permission
resolving granted, non-null worker registration, messaging-client setup,
truthy token, listener wiring (the backend attempt's outcome being
irrelevant); on every fatal abort path `isPushInitialized` stays false. -/
theorem c3_flag_set_iff_full_sequence (env : Env) (s : PushState)
    (h : isPushInitialized s = false) :
    isPushInitialized (runPush env s).1 = fullSuccess env := by
  have h0 : s.isInitialized = false := h
  by_cases hc : capabilitiesOk env = true
  · rw [runPush_of_caps env s h0 hc]
    show (runTryBody env s).state.isInitialized = fullSuccess env
    rw [tryBody_state_flag env s h0]
    simp [fullSuccess, hc]
  · have hc2 : capabilitiesOk env = false := by simpa using hc
    rw [runPush_of_no_caps env s h0 hc2]
    simp [isPushInitialized, fullSuccess, hc2, h0]

/-- Witness for C3 at the initial state and an all-succeeding
environment. -/
theorem c3_witness :
    isPushInitialized initialPushState = false ∧
    isPushInitialized (runPush envAllOk initialPushState).1 = fullSuccess envAllOk :=
  ⟨rfl, c3_flag_set_iff_full_sequence envAllOk initialPushState rfl⟩

/-- Claim C4: in every run whose service-worker registration resolves to
null, the messaging client is never touched — no `fcmService.initialize`
call, no token fetch, no backend call, no listener setup. -/
theorem c4_null_worker_stops_flow (env : Env) (s : PushState)
    (hsw : env.registerServiceWorker = Outcome.ok none) :
    (runPush env s).2.fcmInitCalls = 0 ∧
    (runPush env s).2.getTokenCalls = 0 ∧
    (runPush env s).2.backendCalls = 0 ∧
    (runPush env s).2.setupListenerCalls = 0 := by
  by_cases h : s.isInitialized = true
  · rw [runPush_of_flag env s h]; simp [Trace.empty]
  · have h0 : s.isInitialized = false := by simpa using h
    by_cases hc : capabilitiesOk env = true
    · rw [runPush_of_caps env s h0 hc]
      exact tryBody_trace_null_sw env s hsw
    · have hc2 : capabilitiesOk env = false := by simpa using hc
      rw [runPush_of_no_caps env s h0 hc2]; simp [Trace.empty]

/-- Witness for C4 at a concrete environment with null registration. -/
theorem c4_witness :
    envNullWorker.registerServiceWorker = Outcome.ok none ∧
    ((runPush envNullWorker initialPushState).2.fcmInitCalls = 0 ∧
     (runPush envNullWorker initialPushState).2.getTokenCalls = 0 ∧
     (runPush envNullWorker initialPushState).2.backendCalls = 0 ∧
     (runPush envNullWorker initialPushState).2.setupListenerCalls = 0) :=
  ⟨rfl, c4_null_worker_stops_flow envNullWorker initialPushState rfl⟩

/-- Claim C5: in every run whose permission status reads denied at the
start of permission resolution, neither worker registration nor a token
fetch is ever attempted. -/
theorem c5_denied_no_worker_no_token (env : Env) (s : PushState)
    (hd : env.notificationPermission = Permission.denied) :
    (runPush env s).2.registerServiceWorkerCalls = 0 ∧
    (runPush env s).2.getTokenCalls = 0 := by
  by_cases h : s.isInitialized = true
  · rw [runPush_of_flag env s h]; simp [Trace.empty]
  · have h0 : s.isInitialized = false := by simpa using h
    by_cases hc : capabilitiesOk env = true
    · rw [runPush_of_caps env s h0 hc]
      simp [runTryBody, hd, TryResult.trace, Trace.empty]
    · have hc2 : capabilitiesOk env = false := by simpa using hc
      rw [runPush_of_no_caps env s h0 hc2]; simp [Trace.empty]

/-- Witness for C5 at a concrete denied environment. -/
theorem c5_witness :
    envDenied.notificationPermission = Permission.denied ∧
    ((runPush envDenied initialPushState).2.registerServiceWorkerCalls = 0 ∧
     (runPush envDenied initialPushState).2.getTokenCalls = 0) :=
  ⟨rfl, c5_denied_no_worker_no_token envDenied initialPushState rfl⟩

/-- Claim C6: when a truthy token has been retrieved, a rejecting
backend registration (failing api import or failing POST to
`/mobcash/devices/`) is non-fatal: the rejection is absorbed inside
`registerDeviceOnBackend`, the backend call is attempted once, the
foreground listener is still wired afterwards, the run ends initialized,
and the token stays cached. -/
theorem c6_backend_failure_nonfatal (env : Env) (s : PushState) (tok : String)
    (h : isPushInitialized s = false)
    (hc : capabilitiesOk env = true)
    (hp : permissionResolvesGranted env = true)
    (hsw : env.registerServiceWorker = Outcome.ok (some ()))
    (hf : env.fcmInit = Outcome.ok ())
    (ht : env.getToken = Outcome.ok (some tok))
    (hne : tok ≠ "")
    (hb : env.backendPost = Outcome.throw)
    (hl : env.setupForegroundListener = Outcome.ok ()) :
    registerDeviceOnBackend env.backendPost = Outcome.ok () ∧
    (runPush env s).2.backendCalls = 1 ∧
    (runPush env s).2.setupListenerCalls = 1 ∧
    isPushInitialized (runPush env s).1 = true ∧
    getPushToken (runPush env s).1 = some tok := by
  have h0 : s.isInitialized = false := h
  refine ⟨by rw [hb]; rfl, ?_⟩
  rcases tryBody_eq_afterPerm env s hp with he | he
  · rw [runPush_of_caps env s h0 hc, he,
      afterPerm_success_leaf env s 0 tok hsw hf ht hne hl]
    simp [isPushInitialized, getPushToken, TryResult.state, TryResult.trace]
  · rw [runPush_of_caps env s h0 hc, he,
      afterPerm_success_leaf env s 1 tok hsw hf ht hne hl]
    simp [isPushInitialized, getPushToken, TryResult.state, TryResult.trace]

/-- Witness for C6 at a concrete environment whose backend call rejects. -/
theorem c6_witness :
    isPushInitialized initialPushState = false ∧
    capabilitiesOk envBackendFails = true ∧
    permissionResolvesGranted envBackendFails = true ∧
    envBackendFails.backendPost = Outcome.throw ∧
    (registerDeviceOnBackend envBackendFails.backendPost = Outcome.ok () ∧
     (runPush envBackendFails initialPushState).2.backendCalls = 1 ∧
     (runPush envBackendFails initialPushState).2.setupListenerCalls = 1 ∧
     isPushInitialized (runPush envBackendFails initialPushState).1 = true ∧
     getPushToken (runPush envBackendFails initialPushState).1 = some "tokA") :=
  ⟨rfl, by decide, by decide, rfl,
   c6_backend_failure_nonfatal envBackendFails initialPushState "tokA"
     rfl (by decide) (by decide) rfl rfl rfl (by decide) rfl rfl⟩

/-- Counterexample to C7 as stated: in a run whose collaborators all
succeed up to the token fetch but whose listener wiring throws, no
successful run has occurred (the flag is still false), yet
`getPushToken` already returns the fetched token instead of null — the
token is cached at line 209, before the run can still fail. -/
theorem c7_counterexample :
    isPushInitialized (runPush envListenerThrows initialPushState).1 = false ∧
    getPushToken (runPush envListenerThrows initialPushState).1 = some "tok-c7" := by
  constructor
  · rfl
  · rfl

/-- Claim C7 (amended): starting from the initial state, `getPushToken`
returns null exactly until a run reaches the token-caching step — i.e.
when capabilities, permission, worker registration, messaging-client
setup and a truthy token fetch all succeed — and from then on returns
exactly the string the messaging client handed back, even if that run
subsequently aborts before setting the initialized flag. -/
theorem c7_token_cache_characterization (env : Env) :
    getPushToken (runPush env initialPushState).1 =
      (if reachedTokenCache env then fetchedToken env else none) := by
  by_cases hc : capabilitiesOk env = true
  · rw [runPush_of_caps env initialPushState rfl hc]
    show (runTryBody env initialPushState).state.registrationToken = _
    rw [tryBody_state_token env initialPushState rfl]
    simp [reachedTokenCache, hc, Bool.and_assoc]
  · have hc2 : capabilitiesOk env = false := by simpa using hc
    rw [runPush_of_no_caps env initialPushState rfl hc2]
    simp [getPushToken, reachedTokenCache, hc2, initialPushState]

/-- Counterexample to C8 as stated: a payload whose title field is
present but empty yields a notification titled "Notification", not the
present title, and a click on a payload whose url field is present but
empty opens nothing — JavaScript `||` and `if (data?.url)` treat the
empty string like an absent value. -/
theorem c8_counterexample :
    foregroundListener true Permission.granted false 0 cexPayload =
      some (cexBuilt, cexClick) ∧
    cexPayload.notification = some { title := some "", body := some "B" } ∧
    cexBuilt.title = "Notification" ∧
    ("Notification" : String) ≠ "" ∧
    cexPayload.data = some { url := some "" } ∧
    cexClick.openedUrl = none := by
  refine ⟨rfl, rfl, rfl, ?_, rfl, rfl⟩
  decide

/-- Claim C8 (amended): whenever the wired listener constructs a
notification, its title is the payload title falling back to
"Notification" when absent or empty, its body is the payload body or
the empty string, its tag is the channel id joined with the current
timestamp, and the click handler prevents default handling, focuses the
window, opens the payload url exactly when it is present and non-empty,
and closes the notification. -/
theorem c8_listener_output_characterization (a : Bool) (p : Permission)
    (c : Bool) (now : Nat) (payload : ForegroundPayload)
    (n : BuiltNotification) (cb : ClickBehavior)
    (h : foregroundListener a p c now payload = some (n, cb)) :
    n.title = amendedTitle payload ∧
    n.body = amendedBody payload ∧
    n.tag = NOTIFICATION_CHANNEL.id ++ "_" ++ toString now ∧
    cb.preventedDefault = true ∧
    cb.focusedWindow = true ∧
    cb.openedUrl = amendedOpenedUrl payload ∧
    cb.closedNotification = true := by
  unfold foregroundListener showNativeNotification at h
  split at h
  · exact absurd h (by simp)
  · split at h
    · exact absurd h (by simp)
    · split at h
      · exact absurd h (by simp)
      · rw [Option.some.injEq, Prod.mk.injEq] at h
        obtain ⟨hn2, hcb⟩ := h
        subst hn2
        subst hcb
        exact ⟨jsOrElse_title_eq payload, jsOrElse_body_eq payload, rfl, rfl, rfl,
          click_url_eq payload, rfl⟩

/-- Witness for amended C8 at the spec's own test vector. -/
theorem c8_witness :
    foregroundListener true Permission.granted false 7 specPayload =
      some (specBuilt, specClick) ∧
    (specBuilt.title = amendedTitle specPayload ∧
     specBuilt.body = amendedBody specPayload ∧
     specBuilt.tag = NOTIFICATION_CHANNEL.id ++ "_" ++ toString 7 ∧
     specClick.preventedDefault = true ∧
     specClick.focusedWindow = true ∧
     specClick.openedUrl = amendedOpenedUrl specPayload ∧
     specClick.closedNotification = true) :=
  ⟨by decide, c8_listener_output_characterization true Permission.granted false 7
    specPayload specBuilt specClick (by decide)⟩

/-- Claim C9: starting unflagged with capabilities present and an
initial permission status of default, exactly one permission request is
issued; any result other than granted aborts before worker registration,
while a granted result lets the run proceed to register the worker. -/
theorem c9_default_single_request (env : Env) (s : PushState)
    (h : isPushInitialized s = false)
    (hc : capabilitiesOk env = true)
    (hd : env.notificationPermission = Permission.default) :
    (runPush env s).2.requestPermissionCalls = 1 ∧
    (env.requestPermission ≠ Outcome.ok Permission.granted →
      (runPush env s).2.registerServiceWorkerCalls = 0) ∧
    (env.requestPermission = Outcome.ok Permission.granted →
      (runPush env s).2.registerServiceWorkerCalls = 1) := by
  have h0 : s.isInitialized = false := h
  rw [runPush_of_caps env s h0 hc]
  show (runTryBody env s).trace.requestPermissionCalls = 1 ∧ _ ∧ _
  unfold runTryBody
  rw [hd]
  cases hreq : env.requestPermission with
  | throw => simp [TryResult.trace]
  | ok p =>
    cases p with
    | granted =>
      refine ⟨(afterPerm_trace_head env s 1).1, fun hne => absurd rfl hne,
        fun _ => (afterPerm_trace_head env s 1).2⟩
    | default => simp [TryResult.trace]
    | denied => simp [TryResult.trace]

/-- Witness for C9 at a concrete environment that starts default and is
granted at the prompt. -/
theorem c9_witness :
    isPushInitialized initialPushState = false ∧
    capabilitiesOk envDefaultGrant = true ∧
    envDefaultGrant.notificationPermission = Permission.default ∧
    ((runPush envDefaultGrant initialPushState).2.requestPermissionCalls = 1 ∧
     (envDefaultGrant.requestPermission ≠ Outcome.ok Permission.granted →
       (runPush envDefaultGrant initialPushState).2.registerServiceWorkerCalls = 0) ∧
     (envDefaultGrant.requestPermission = Outcome.ok Permission.granted →
       (runPush envDefaultGrant initialPushState).2.registerServiceWorkerCalls = 1)) :=
  ⟨rfl, by decide, rfl,
   c9_default_single_request envDefaultGrant initialPushState rfl (by decide) rfl⟩

/-- Claim C10: outside a browser context or without the Notification
API, `getPermissionStatus` reports denied; otherwise it reports the live
`Notification.permission` value. -/
theorem c10_permission_status_live (env : Env) :
    getPermissionStatus env =
      (if env.windowDefined && env.notificationSupported
       then env.notificationPermission
       else Permission.denied) := by
  unfold getPermissionStatus
  cases hw : env.windowDefined <;> cases hn : env.notificationSupported <;> simp
